import Mathlib

/-!
Shallow embedding of the Trader repository (strategy.py, execution.py).

Python floats are modelled as exact rationals.  The dicts returned by
`evaluate_symbol_for_signal` and `Executor.open_trade` are modelled as
association lists from string keys to a small value type `Val`, so that
which keys a result carries is itself part of the model.
-/

/-- Python-style values appearing in the returned dicts. `null` is Python `None`. -/
inductive Val where
  | str (s : String)
  | rat (q : ℚ)
  | int (n : ℤ)
  | bool (b : Bool)
  | null
deriving DecidableEq

/-- One kline/candle dict, fields as fetched in main.py `fetch_last_3_klines`.
`open` is a Lean keyword, hence the field name `open_`. -/
structure Kline where
  open_time : ℤ
  open_ : ℚ
  high : ℚ
  low : ℚ
  close : ℚ
  volume : ℚ
deriving DecidableEq

/-- strategy.py line 5. -/
def VOLUME_MULTIPLIER_DEFAULT : ℚ := 18

/-- strategy.py line 6. -/
def C1_DOLLAR_MIN : ℚ := 5555

/-- The dict built at strategy.py lines 56-61.  The code formats the
timestamp as the ISO string of `C2.open_time`; the formatting is injective
in the millisecond timestamp, so we carry the raw `open_time` value. -/
def mkSignal (direction : String) (K1 K2 K3 : Kline) : List (String × Val) :=
  [("direction", Val.str direction),
   ("entry_price_est", Val.rat K3.open_),
   ("entry_timestamp", Val.int K2.open_time),
   ("c1_dollar", Val.rat (K1.volume * K1.open_))]

/-- strategy.py `evaluate_symbol_for_signal` (lines 8-61).  The
`try/except` around the `c1_dollar` conversion only fires on non-numeric
dict entries, which the typed model excludes.  The `direction = None /
if not direction` dance collapses to the if-chain below. -/
def evaluate_symbol_for_signal (klines : List Kline)
    (volume_multiplier : ℚ) (c1_dollar_min : ℚ) : Option (List (String × Val)) :=
  if klines.length < 3 then none else
  match klines with
  | K1 :: K2 :: K3 :: _ =>
      let c1_dollar := K1.volume * K1.open_
      if c1_dollar < c1_dollar_min then none
      else if K1.volume ≤ 0 ∨ K2.volume < K1.volume * volume_multiplier then none
      else if K1.open_ ≤ 0 then none
      else
        let up_move := (K2.high - K1.open_) / K1.open_
        let down_move := (K1.open_ - K2.low) / K1.open_
        if (0.15 : ℚ) ≤ up_move then some (mkSignal "LONG" K1 K2 K3)
        else if (0.15 : ℚ) ≤ down_move then some (mkSignal "SHORT" K1 K2 K3)
        else none
  | _ => none

/-- Scenario-1 candles from the spec: C1 open 1, volume 10000. -/
def k1s : Kline := ⟨0, 1, 1, 1, 1, 10000⟩

/-- Scenario-1 candles: C2 high 1.20, low 0.95, volume 200000. -/
def k2s : Kline := ⟨180000, 1, 6/5, 19/20, 1, 200000⟩

/-- Scenario-1 candles: C3 open 1.16. -/
def k3s : Kline := ⟨360000, 29/25, 29/25, 1, 1, 1000⟩

example : evaluate_symbol_for_signal [k1s, k2s, k3s] 15 5555 =
    some (mkSignal "LONG" k1s k2s k3s) := by
  norm_num [evaluate_symbol_for_signal, k1s, k2s, k3s]

example : evaluate_symbol_for_signal [k1s] 15 5555 = none := by
  norm_num [evaluate_symbol_for_signal]

/-- Rounding toward zero, as Python `Decimal` `ROUND_DOWN`. -/
def truncQ (x : ℚ) : ℤ :=
  if 0 ≤ x then ⌊x⌋ else -⌊-x⌋

/-- Python `round` ties-to-even rounding of a rational to an integer. -/
def roundHalfEven (x : ℚ) : ℤ :=
  if x - ⌊x⌋ < 1/2 then ⌊x⌋
  else if 1/2 < x - ⌊x⌋ then ⌊x⌋ + 1
  else if 2 ∣ ⌊x⌋ then ⌊x⌋ else ⌊x⌋ + 1

/-- Python `round(x, 8)` at execution.py lines 154 and 157. -/
def round8 (x : ℚ) : ℚ :=
  (roundHalfEven (x * 10 ^ 8) : ℚ) / 10 ^ 8

/-- A decimal literal as Python `Decimal(str(step))` sees it: value
`mant / 10 ^ frac`, carrying `frac` digits after the decimal point.
`str(0.5)` is `"0.5"`, i.e. `⟨5, 1⟩`; the default step `1.0` prints as
`"1.0"`, i.e. `⟨10, 1⟩`.  `Decimal.quantize` rounds to the exponent
`-frac` of this literal. -/
structure StepDecimal where
  mant : ℤ
  frac : ℕ
deriving DecidableEq

/-- Numeric value of the decimal literal. -/
def StepDecimal.val (s : StepDecimal) : ℚ := (s.mant : ℚ) / 10 ^ s.frac

/-- execution.py `Executor._qty_from_usdt` (lines 46-79).  `step_info` is
the LOT_SIZE stepSize literal when the instrument metadata has one
(`none` models a missing filter, defaulting to `1.0`, printed `"1.0"`).
`Decimal(str(raw_qty)).quantize(Decimal(str(qty_step)), ROUND_DOWN)`
truncates `raw_qty` at the decimal exponent of the step literal; the
`precision` variable in the source is computed but never used, and the
`except` fallback around `float(q)` is unreachable. -/
def qty_from_usdt (usdt_amount leverage price : ℚ) (step_info : Option StepDecimal) : ℚ :=
  if price ≤ 0 then 0
  else
    let notional := usdt_amount * leverage
    let raw_qty := notional / price
    let qty_step := step_info.getD ⟨10, 1⟩
    let q : ℚ := (truncQ (raw_qty * 10 ^ qty_step.frac) : ℚ) / 10 ^ qty_step.frac
    if q ≤ 0 then 0 else q

/-- execution.py line 108. -/
def remaining_slots (max_slices current_open_count : ℤ) : ℤ :=
  max 1 (max_slices - current_open_count)

/-- execution.py lines 107-114: slice of the balance for one trade,
capped at half the wallet. -/
def position_slice (usdt_balance : ℚ) (max_slices current_open_count : ℤ) : ℚ :=
  let slice_amount := usdt_balance / (remaining_slots max_slices current_open_count : ℚ)
  let max_slice_allowed := usdt_balance * 0.5
  if slice_amount > max_slice_allowed then max_slice_allowed else slice_amount

/-- One `futures_create_order` submission, with the parameters the code
passes: the market entry carries no price and no time-in-force. -/
structure Order where
  side : String
  type : String
  quantity : ℚ
  price : Option ℚ
  timeInForce : Option String
  reduceOnly : Bool
deriving DecidableEq

/-- Responses of the exchange collaborators used by `open_trade`, one run.
`balanceResult` is the available-USDT read (`none` = read failed, the code
falls back to 1000.0); `tickerPrice` is the live ticker (`none` = fetch
failed, fall back to the caller's estimate); `entryResult` on success
carries the optional positive `avgPrice` field of the order response. -/
structure ExchangeEnv where
  marginResult : Except String Unit
  leverageResult : Except String Unit
  balanceResult : Option ℚ
  tickerPrice : Option ℚ
  stepInfo : Option StepDecimal
  entryResult : Except String (Option ℚ)
  exitResult : Except String Unit

/-- Fill-price extraction at execution.py lines 138-143: prefer the
reported average price when present and positive, else the reference price. -/
def fill_price_of (avg_price : Option ℚ) (current_price : ℚ) : ℚ :=
  match avg_price with
  | some p => if 0 < p then p else current_price
  | none => current_price

/-- Slice computed inside `open_trade` (execution.py lines 107-114). -/
def trade_slice (env : ExchangeEnv) (max_slices current_open_count : ℤ) : ℚ :=
  position_slice (env.balanceResult.getD 1000) max_slices current_open_count

/-- Reference price inside `open_trade` (execution.py lines 117-121). -/
def trade_price (env : ExchangeEnv) (entry_price_est : ℚ) : ℚ :=
  env.tickerPrice.getD entry_price_est

/-- Quantity computed inside `open_trade` (execution.py line 123). -/
def trade_qty (env : ExchangeEnv) (max_slices current_open_count : ℤ)
    (leverage entry_price_est : ℚ) : ℚ :=
  qty_from_usdt (trade_slice env max_slices current_open_count) leverage
    (trade_price env entry_price_est) env.stepInfo

/-- execution.py `Executor.open_trade` (lines 82-175), returning the
result dict together with the list of order submissions attempted, in
order.  The margin-type call's failure is swallowed by the inner
`try/except` (lines 94-98), so `marginResult` is never consulted; a
leverage failure escapes to the outer handler and aborts. -/
def open_trade (env : ExchangeEnv) (tp_pct : ℚ) (max_slices : ℤ) (leverage : ℚ)
    (direction : String) (entry_price_est : ℚ) (current_open_count : ℤ) :
    List (String × Val) × List Order :=
  match env.leverageResult with
  | Except.error e => ([("ok", Val.bool false), ("error", Val.str e)], [])
  | Except.ok _ =>
    if trade_qty env max_slices current_open_count leverage entry_price_est ≤ 0 then
      ([("ok", Val.bool false), ("error", Val.str "computed qty <= 0")], [])
    else
      let qty := trade_qty env max_slices current_open_count leverage entry_price_est
      let side := if direction = "LONG" then "BUY" else "SELL"
      let entry_order : Order := ⟨side, "MARKET", qty, none, none, false⟩
      match env.entryResult with
      | Except.error e => ([("ok", Val.bool false), ("error", Val.str e)], [entry_order])
      | Except.ok avg_price =>
        let fill_price := fill_price_of avg_price (trade_price env entry_price_est)
        let tp_price := if side = "BUY" then round8 (fill_price * (1 + tp_pct))
                        else round8 (fill_price * (1 - tp_pct))
        let tp_side := if side = "BUY" then "SELL" else "BUY"
        let tp_order : Order := ⟨tp_side, "LIMIT", qty, some tp_price, some "GTC", true⟩
        match env.exitResult with
        | Except.error _ =>
          ([("ok", Val.bool true), ("fill_price", Val.rat fill_price),
            ("qty", Val.rat qty), ("tp_price", Val.null),
            ("slice_amount_usdt", Val.rat (trade_slice env max_slices current_open_count))],
           [entry_order, tp_order])
        | Except.ok _ =>
          ([("ok", Val.bool true), ("fill_price", Val.rat fill_price),
            ("qty", Val.rat qty), ("tp_price", Val.rat tp_price),
            ("slice_amount_usdt", Val.rat (trade_slice env max_slices current_open_count))],
           [entry_order, tp_order])

/-- A run where every collaborator succeeds: balance 10, live price 1,
step 0.01, entry filled at average price 1. -/
def envHappy : ExchangeEnv :=
  ⟨Except.ok (), Except.ok (), some 10, some 1, some ⟨1, 2⟩, Except.ok (some 1), Except.ok ()⟩

/-- Like `envHappy` but the leverage call fails. -/
def envLevFail : ExchangeEnv :=
  ⟨Except.ok (), Except.error "lev boom", some 10, some 1, some ⟨1, 2⟩,
   Except.ok (some 1), Except.ok ()⟩

/-- Like `envHappy` but the take-profit submission fails. -/
def envExitFail : ExchangeEnv :=
  ⟨Except.ok (), Except.ok (), some 10, some 1, some ⟨1, 2⟩,
   Except.ok (some 1), Except.error "tp boom"⟩

/-- Scenario 5 of the spec: slice 1 (balance 10 over 10 slots), price
100000, step 0.01, so the floored quantity is 0. -/
def envZeroQty : ExchangeEnv :=
  ⟨Except.ok (), Except.ok (), some 10, some 100000, some ⟨1, 2⟩,
   Except.ok (some 1), Except.ok ()⟩

/-- Entry fills at the dust price `10 ^ (-9)`; used to exhibit the
8-decimal rounding of the take-profit price. -/
def envTinyFill : ExchangeEnv :=
  ⟨Except.ok (), Except.ok (), some 10, some 1, some ⟨1, 2⟩,
   Except.ok (some (1 / 1000000000)), Except.ok ()⟩

example : trade_qty envZeroQty 10 0 5 1 = 0 := by
  norm_num [trade_qty, trade_slice, trade_price, qty_from_usdt, position_slice,
    remaining_slots, truncQ, envZeroQty]

example : trade_qty envHappy 10 0 5 1 = 5 := by
  norm_num [trade_qty, trade_slice, trade_price, qty_from_usdt, position_slice,
    remaining_slots, truncQ, envHappy]

/-- Claim C1: when the liquidity, volume and sanity gates all pass, the
detector returns a LONG signal when `up_move ≥ 0.15`, otherwise a SHORT
signal when `down_move ≥ 0.15`, otherwise no signal; when both thresholds
are crossed the LONG branch wins. -/
theorem signal_direction_trichotomy (K1 K2 K3 : Kline) (vm cmin : ℚ)
    (hliq : cmin ≤ K1.volume * K1.open_)
    (hv1 : 0 < K1.volume)
    (hv2 : K1.volume * vm ≤ K2.volume)
    (hopen : 0 < K1.open_) :
    ((0.15 : ℚ) ≤ (K2.high - K1.open_) / K1.open_ →
        evaluate_symbol_for_signal [K1, K2, K3] vm cmin = some (mkSignal "LONG" K1 K2 K3))
    ∧ ((K2.high - K1.open_) / K1.open_ < 0.15 →
        (0.15 : ℚ) ≤ (K1.open_ - K2.low) / K1.open_ →
        evaluate_symbol_for_signal [K1, K2, K3] vm cmin = some (mkSignal "SHORT" K1 K2 K3))
    ∧ ((K2.high - K1.open_) / K1.open_ < 0.15 →
        (K1.open_ - K2.low) / K1.open_ < 0.15 →
        evaluate_symbol_for_signal [K1, K2, K3] vm cmin = none)
    ∧ ((0.15 : ℚ) ≤ (K2.high - K1.open_) / K1.open_ →
        (0.15 : ℚ) ≤ (K1.open_ - K2.low) / K1.open_ →
        evaluate_symbol_for_signal [K1, K2, K3] vm cmin = some (mkSignal "LONG" K1 K2 K3)) := by
  have hlen : ¬ ([K1, K2, K3].length < 3) := by simp
  have h1 : ¬ (K1.volume * K1.open_ < cmin) := not_lt.mpr hliq
  have h2 : ¬ (K1.volume ≤ 0 ∨ K2.volume < K1.volume * vm) := by
    push_neg
    exact ⟨hv1, hv2⟩
  have h3 : ¬ (K1.open_ ≤ 0) := not_le.mpr hopen
  refine ⟨fun hup => ?_, fun hup hdown => ?_, fun hup hdown => ?_, fun hup _ => ?_⟩ <;>
    simp only [evaluate_symbol_for_signal, if_neg hlen, if_neg h1, if_neg h2, if_neg h3]
  · rw [if_pos hup]
  · rw [if_neg (not_le.mpr hup), if_pos hdown]
  · rw [if_neg (not_le.mpr hup), if_neg (not_le.mpr hdown)]
  · rw [if_pos hup]

/-- Claim C1 witness: the spec's scenario-1 candles produce a LONG signal. -/
theorem signal_direction_trichotomy_witness :
    evaluate_symbol_for_signal [k1s, k2s, k3s] 15 5555 = some (mkSignal "LONG" k1s k2s k3s) :=
  (signal_direction_trichotomy k1s k2s k3s 15 5555 (by norm_num [k1s])
    (by norm_num [k1s]) (by norm_num [k1s, k2s]) (by norm_num [k1s])).1
    (by norm_num [k1s, k2s])

/-- Claim C2: a failure of any of the three gates — liquidity, volume
explosion, or price sanity — yields no signal. -/
theorem gate_failure_returns_none (K1 K2 K3 : Kline) (vm cmin : ℚ)
    (h : K1.volume * K1.open_ < cmin ∨ K1.volume ≤ 0 ∨
         K2.volume < K1.volume * vm ∨ K1.open_ ≤ 0) :
    evaluate_symbol_for_signal [K1, K2, K3] vm cmin = none := by
  have hlen : ¬ ([K1, K2, K3].length < 3) := by simp
  simp only [evaluate_symbol_for_signal, if_neg hlen]
  split_ifs <;> first
    | rfl
    | (exfalso; tauto)

/-- Claim C2 witness: an illiquid first candle is rejected. -/
theorem gate_failure_returns_none_witness :
    evaluate_symbol_for_signal [k1s, k2s, k3s] 15 999999 = none :=
  gate_failure_returns_none k1s k2s k3s 15 999999 (Or.inl (by norm_num [k1s]))

/-- Claim C10: fewer than three candles always yield no signal, with no
error raised. -/
theorem short_input_returns_none (klines : List Kline) (vm cmin : ℚ)
    (h : klines.length < 3) :
    evaluate_symbol_for_signal klines vm cmin = none := by
  unfold evaluate_symbol_for_signal
  rw [if_pos h]

/-- Claim C10 witness: the empty candle list yields no signal. -/
theorem short_input_returns_none_witness :
    evaluate_symbol_for_signal [] 15 5555 = none :=
  short_input_returns_none [] 15 5555 (by simp)

/-- Claim C9 (corrected): an accepted signal dict is exactly
`mkSignal`, carrying direction, `entry_price_est = C3.open`,
`entry_timestamp = C2.open_time` and `c1_dollar`; the direction is LONG
or SHORT. -/
theorem accepted_signal_fields (K1 K2 K3 : Kline) (vm cmin : ℚ)
    (sig : List (String × Val))
    (h : evaluate_symbol_for_signal [K1, K2, K3] vm cmin = some sig) :
    sig = mkSignal "LONG" K1 K2 K3 ∨ sig = mkSignal "SHORT" K1 K2 K3 := by
  have hlen : ¬ ([K1, K2, K3].length < 3) := by simp
  simp only [evaluate_symbol_for_signal, if_neg hlen] at h
  split_ifs at h <;> simp_all

/-- Claim C9 witness: the scenario-1 signal is the LONG dict. -/
theorem accepted_signal_fields_witness :
    mkSignal "LONG" k1s k2s k3s = mkSignal "LONG" k1s k2s k3s
    ∨ mkSignal "LONG" k1s k2s k3s = mkSignal "SHORT" k1s k2s k3s :=
  accepted_signal_fields k1s k2s k3s 15 5555 (mkSignal "LONG" k1s k2s k3s)
    (by norm_num [evaluate_symbol_for_signal, k1s, k2s, k3s])

/-- Claim C9 counterexample: the accepted signal dict carries only
`direction`, `entry_price_est`, `entry_timestamp` and `c1_dollar`: the
diagnostic keys `up_move`, `down_move`, `c1_volume`, `c2_volume` the spec
lists are absent. -/
theorem signal_missing_diagnostic_fields :
    evaluate_symbol_for_signal [k1s, k2s, k3s] 15 5555 =
      some [("direction", Val.str "LONG"), ("entry_price_est", Val.rat (29/25)),
            ("entry_timestamp", Val.int 180000), ("c1_dollar", Val.rat 10000)]
    ∧ ¬ ("up_move" ∈ (mkSignal "LONG" k1s k2s k3s).map Prod.fst)
    ∧ ¬ ("down_move" ∈ (mkSignal "LONG" k1s k2s k3s).map Prod.fst)
    ∧ ¬ ("c1_volume" ∈ (mkSignal "LONG" k1s k2s k3s).map Prod.fst)
    ∧ ¬ ("c2_volume" ∈ (mkSignal "LONG" k1s k2s k3s).map Prod.fst) := by
  refine ⟨?_, by simp [mkSignal], by simp [mkSignal], by simp [mkSignal], by simp [mkSignal]⟩
  norm_num [evaluate_symbol_for_signal, mkSignal, k1s, k2s, k3s]

/-- Claim C4: the position sizer always sees at least one remaining slot,
divides the balance by it, and clamps the result into
`[0, 0.5 × balance]`. -/
theorem position_slice_bounds (b : ℚ) (m c : ℤ)
    (hb : 0 ≤ b) (hm : 0 < m) (hc : 0 ≤ c) :
    1 ≤ remaining_slots m c
    ∧ position_slice b m c = min (b / (remaining_slots m c : ℚ)) (b * 0.5)
    ∧ 0 ≤ position_slice b m c
    ∧ position_slice b m c ≤ b * 0.5 := by
  have h1 : 1 ≤ remaining_slots m c := le_max_left _ _
  have hpos : (0 : ℚ) < (remaining_slots m c : ℚ) := by
    exact_mod_cast lt_of_lt_of_le Int.zero_lt_one h1
  have hs : 0 ≤ b / (remaining_slots m c : ℚ) := div_nonneg hb hpos.le
  have hcap : 0 ≤ b * 0.5 := mul_nonneg hb (by norm_num)
  have hmin : position_slice b m c = min (b / (remaining_slots m c : ℚ)) (b * 0.5) := by
    unfold position_slice
    rcases le_or_lt (b / (remaining_slots m c : ℚ)) (b * 0.5) with hle | hlt
    · rw [if_neg (not_lt.mpr hle), min_eq_left hle]
    · rw [if_pos hlt, min_eq_right hlt.le]
  refine ⟨h1, hmin, ?_, ?_⟩
  · rw [hmin]
    exact le_min hs hcap
  · rw [hmin]
    exact min_le_right _ _

/-- Claim C4 witness: the spec's scenario 3 — balance 1000, 10 slices,
9 already open — is clamped from 1000 to 500. -/
theorem position_slice_bounds_witness :
    (1 ≤ remaining_slots 10 9
      ∧ position_slice 1000 10 9 = min ((1000 : ℚ) / (remaining_slots 10 9 : ℚ)) (1000 * 0.5)
      ∧ 0 ≤ position_slice 1000 10 9
      ∧ position_slice 1000 10 9 ≤ 1000 * 0.5)
    ∧ position_slice 1000 10 9 = 500 := by
  refine ⟨position_slice_bounds 1000 10 9 (by norm_num) (by norm_num) (by norm_num), ?_⟩
  norm_num [position_slice, remaining_slots]

/-- Claim C3 (code bug): at step size 0.5 the normalizer's
`Decimal.quantize` truncates to the step's decimal exponent (tenths), not
to a multiple of the step: raw quantity 0.7 is returned as 0.7, which is
not an integer multiple of 0.5, contradicting the "round down to nearest
step" comment in the source. -/
theorem qty_not_multiple_of_step :
    qty_from_usdt (7/50) 5 1 (some ⟨5, 1⟩) = 7/10
    ∧ StepDecimal.val ⟨5, 1⟩ = 1/2
    ∧ ¬ (∃ k : ℤ, (7/10 : ℚ) = (k : ℚ) * (1/2)) := by
  refine ⟨?_, by norm_num [StepDecimal.val], ?_⟩
  · norm_num [qty_from_usdt, truncQ]
  · rintro ⟨k, hk⟩
    have h5 : ((5 * k : ℤ) : ℚ) = 7 := by
      push_cast
      linarith
    have h7 : (5 * k : ℤ) = 7 := by exact_mod_cast h5
    omega

/-- Claim C5: when the computed quantity is not positive, `open_trade`
aborts with the fixed error dict before attempting any order submission. -/
theorem open_trade_aborts_on_zero_qty (env : ExchangeEnv) (tp_pct : ℚ)
    (max_slices : ℤ) (leverage : ℚ) (direction : String) (entry_price_est : ℚ)
    (current_open_count : ℤ)
    (hlev : env.leverageResult = Except.ok ())
    (hqty : trade_qty env max_slices current_open_count leverage entry_price_est ≤ 0) :
    open_trade env tp_pct max_slices leverage direction entry_price_est current_open_count =
      ([("ok", Val.bool false), ("error", Val.str "computed qty <= 0")], []) := by
  simp [open_trade, hlev, hqty]

/-- Claim C5 witness: the spec's scenario 5 — slice 1, leverage 5, price
100000, step 0.01 — floors to quantity 0 and aborts with no orders. -/
theorem open_trade_aborts_on_zero_qty_witness :
    open_trade envZeroQty (3/100) 10 5 "LONG" 1 0 =
      ([("ok", Val.bool false), ("error", Val.str "computed qty <= 0")], []) :=
  open_trade_aborts_on_zero_qty envZeroQty (3/100) 10 5 "LONG" 1 0 rfl
    (by norm_num [trade_qty, trade_slice, trade_price, qty_from_usdt, position_slice,
      remaining_slots, truncQ, envZeroQty])

/-- Claim C6: with the entry filled and the exit submission failing, the
result still reports success, carrying the fill price, the quantity and
the slice, with a null take-profit price. -/
theorem open_trade_exit_failure_degraded (env : ExchangeEnv) (tp_pct : ℚ)
    (max_slices : ℤ) (leverage : ℚ) (direction : String) (entry_price_est : ℚ)
    (current_open_count : ℤ) (ap : Option ℚ) (msg : String)
    (hlev : env.leverageResult = Except.ok ())
    (hqty : 0 < trade_qty env max_slices current_open_count leverage entry_price_est)
    (hentry : env.entryResult = Except.ok ap)
    (hexit : env.exitResult = Except.error msg) :
    (open_trade env tp_pct max_slices leverage direction entry_price_est current_open_count).1 =
      [("ok", Val.bool true),
       ("fill_price", Val.rat (fill_price_of ap (trade_price env entry_price_est))),
       ("qty", Val.rat (trade_qty env max_slices current_open_count leverage entry_price_est)),
       ("tp_price", Val.null),
       ("slice_amount_usdt", Val.rat (trade_slice env max_slices current_open_count))] := by
  simp [open_trade, hlev, hentry, hexit, not_le.mpr hqty]

/-- Claim C6 witness: a run where only the take-profit call fails still
returns a success dict with a null take-profit price. -/
theorem open_trade_exit_failure_degraded_witness :
    (open_trade envExitFail (3/100) 10 5 "LONG" 1 0).1 =
      [("ok", Val.bool true),
       ("fill_price", Val.rat (fill_price_of (some 1) (trade_price envExitFail 1))),
       ("qty", Val.rat (trade_qty envExitFail 10 0 5 1)),
       ("tp_price", Val.null),
       ("slice_amount_usdt", Val.rat (trade_slice envExitFail 10 0))] :=
  open_trade_exit_failure_degraded envExitFail (3/100) 10 5 "LONG" 1 0 (some 1) "tp boom"
    rfl
    (by norm_num [trade_qty, trade_slice, trade_price, qty_from_usdt, position_slice,
      remaining_slots, truncQ, envExitFail])
    rfl rfl

/-- Claim C7: the margin-type step never influences the run — swapping a
margin failure for a margin success leaves the outcome unchanged — while
a leverage failure aborts at once with the error and no sizing output and
no order submissions. -/
theorem margin_nonfatal_leverage_fatal (env : ExchangeEnv) (e : String) (tp_pct : ℚ)
    (max_slices : ℤ) (leverage : ℚ) (direction : String) (entry_price_est : ℚ)
    (current_open_count : ℤ) :
    open_trade ⟨Except.error e, env.leverageResult, env.balanceResult, env.tickerPrice,
        env.stepInfo, env.entryResult, env.exitResult⟩ tp_pct max_slices leverage
        direction entry_price_est current_open_count =
      open_trade ⟨Except.ok (), env.leverageResult, env.balanceResult, env.tickerPrice,
        env.stepInfo, env.entryResult, env.exitResult⟩ tp_pct max_slices leverage
        direction entry_price_est current_open_count
    ∧ (env.leverageResult = Except.error e →
        open_trade env tp_pct max_slices leverage direction entry_price_est
          current_open_count =
          ([("ok", Val.bool false), ("error", Val.str e)], [])) := by
  constructor
  · rfl
  · intro hlev
    unfold open_trade
    rw [hlev]

/-- Claim C7 witness: a concrete margin failure is invisible in the
result, and a concrete leverage failure aborts with its message. -/
theorem margin_nonfatal_leverage_fatal_witness :
    open_trade ⟨Except.error "margin boom", envHappy.leverageResult, envHappy.balanceResult,
        envHappy.tickerPrice, envHappy.stepInfo, envHappy.entryResult, envHappy.exitResult⟩
        (3/100) 10 5 "LONG" 1 0 =
      open_trade ⟨Except.ok (), envHappy.leverageResult, envHappy.balanceResult,
        envHappy.tickerPrice, envHappy.stepInfo, envHappy.entryResult, envHappy.exitResult⟩
        (3/100) 10 5 "LONG" 1 0
    ∧ open_trade envLevFail (3/100) 10 5 "LONG" 1 0 =
        ([("ok", Val.bool false), ("error", Val.str "lev boom")], []) :=
  ⟨(margin_nonfatal_leverage_fatal envHappy "margin boom" (3/100) 10 5 "LONG" 1 0).1,
   (margin_nonfatal_leverage_fatal envLevFail "lev boom" (3/100) 10 5 "LONG" 1 0).2 rfl⟩

/-- Claim C8 (corrected): after a successful entry the exit submission is
a reduce-only GTC limit order for the entry quantity, sell side at
`round8 (fill × (1 + tp_pct))` for a LONG entry and buy side at
`round8 (fill × (1 − tp_pct))` for a SHORT entry — the source rounds the
take-profit price to 8 decimal places before submitting it. -/
theorem tp_order_shape (env : ExchangeEnv) (tp_pct : ℚ) (max_slices : ℤ)
    (leverage : ℚ) (entry_price_est : ℚ) (current_open_count : ℤ) (ap : Option ℚ)
    (hlev : env.leverageResult = Except.ok ())
    (hqty : 0 < trade_qty env max_slices current_open_count leverage entry_price_est)
    (hentry : env.entryResult = Except.ok ap) :
    (open_trade env tp_pct max_slices leverage "LONG" entry_price_est
        current_open_count).2 =
      [⟨"BUY", "MARKET", trade_qty env max_slices current_open_count leverage entry_price_est,
        none, none, false⟩,
       ⟨"SELL", "LIMIT", trade_qty env max_slices current_open_count leverage entry_price_est,
        some (round8 (fill_price_of ap (trade_price env entry_price_est) * (1 + tp_pct))),
        some "GTC", true⟩]
    ∧ (open_trade env tp_pct max_slices leverage "SHORT" entry_price_est
        current_open_count).2 =
      [⟨"SELL", "MARKET", trade_qty env max_slices current_open_count leverage entry_price_est,
        none, none, false⟩,
       ⟨"BUY", "LIMIT", trade_qty env max_slices current_open_count leverage entry_price_est,
        some (round8 (fill_price_of ap (trade_price env entry_price_est) * (1 - tp_pct))),
        some "GTC", true⟩] := by
  cases hexit : env.exitResult <;>
    exact ⟨by simp [open_trade, hlev, hentry, hexit, not_le.mpr hqty],
           by simp [open_trade, hlev, hentry, hexit, not_le.mpr hqty]⟩

/-- Claim C8 witness: the happy-path run submits the market entry and the
rounded reduce-only GTC take-profit, in both directions. -/
theorem tp_order_shape_witness :
    (open_trade envHappy (3/100) 10 5 "LONG" 1 0).2 =
      [⟨"BUY", "MARKET", trade_qty envHappy 10 0 5 1, none, none, false⟩,
       ⟨"SELL", "LIMIT", trade_qty envHappy 10 0 5 1,
        some (round8 (fill_price_of (some 1) (trade_price envHappy 1) * (1 + 3/100))),
        some "GTC", true⟩]
    ∧ (open_trade envHappy (3/100) 10 5 "SHORT" 1 0).2 =
      [⟨"SELL", "MARKET", trade_qty envHappy 10 0 5 1, none, none, false⟩,
       ⟨"BUY", "LIMIT", trade_qty envHappy 10 0 5 1,
        some (round8 (fill_price_of (some 1) (trade_price envHappy 1) * (1 - 3/100))),
        some "GTC", true⟩] :=
  tp_order_shape envHappy (3/100) 10 5 1 0 (some 1) rfl
    (by norm_num [trade_qty, trade_slice, trade_price, qty_from_usdt, position_slice,
      remaining_slots, truncQ, envHappy])
    rfl

/-- Claim C8 counterexample: an entry filled at the dust price
`10 ^ (-9)` with `tp_pct = 0.03` yields a recorded take-profit price of
0, not `fill × (1 + tp_pct)`: the 8-decimal rounding the claim omits
flushes the product to zero. -/
theorem tp_price_rounding_counterexample :
    (open_trade envTinyFill (3/100) 10 5 "LONG" 1 0).1 =
      [("ok", Val.bool true), ("fill_price", Val.rat (1/1000000000)),
       ("qty", Val.rat 5), ("tp_price", Val.rat 0), ("slice_amount_usdt", Val.rat 1)]
    ∧ (1/1000000000 : ℚ) * (1 + 3/100) ≠ 0 := by
  constructor
  · norm_num [open_trade, envTinyFill, trade_qty, trade_slice, trade_price,
      qty_from_usdt, position_slice, remaining_slots, truncQ, fill_price_of,
      round8, roundHalfEven]
  · norm_num
